import Mathlib

/-!
Verification of the book-details aggregation service (Go): shallow embedding
of the data model, the four data-store fetchers, the sequential and the
concurrent orchestrators, the mode selector, and the HTTP boundary handlers,
with theorems settling the specification claims.

Modelling conventions:
* Go `map[string]interface{}` attribute bags become association lists of
  `String × Value`, where `Value` is a closed tagged type covering the shapes
  this codebase actually stores (strings, floats as exact rationals, ints,
  booleans, a nested string-to-int map for the rating breakdown, and lists of
  string maps for the external recommendation payload).
* The sqlite tables become association lists keyed by book id inside a
  `Database` record; a `QueryRow ... Scan` that finds no row is the failure
  case and yields the error bag, exactly as in `database.go`.
* Wall-clock time is external nondeterminism: a handler takes its measured
  `duration` as a parameter.  The prototype timing harness with `time.Sleep`
  fetchers is modelled separately by an idealised cost semantics (sequential
  duration = sum of simulated delays, concurrent duration = their maximum).
* The goroutine fan-out/fan-in of `handleConcurrentBookDetails` is modelled by
  four single-writer result slots and an explicit completion schedule: a list
  of fetcher roles in the order the tasks deposit their results.  Assembly
  succeeds only when every slot has been written (the join barrier).
* HTTP boundary: a `Request` carries the method, the URL path, and the `mode`
  and `userId` query parameters (the empty string when absent, as returned by
  Go's `Query().Get`).  Handlers also return the trace of fetcher invocations
  they performed, so "no fetcher is invoked" is a statement about the trace.
-/

/-- Dynamically-typed attribute value (Go `interface{}` as stored by this
codebase): string, float (kept exact as a rational), int, bool, a nested
string-to-int map (the `rating_breakdown`), or a list of string maps (the
external recommendation payload). -/
inductive Value where
  | str : String → Value
  | num : ℚ → Value
  | int : Int → Value
  | bool : Bool → Value
  | intMap : List (String × Int) → Value
  | strMapList : List (List (String × String)) → Value
deriving DecidableEq, Repr

/-- Attribute bag: Go `map[string]interface{}`, as an association list. -/
abbrev AttributeBag := List (String × Value)

/-- Row of the `books` table (`database.go`, createSchema). -/
structure BookRow where
  title : String
  author : String
  isbn : String
  publishDate : String
  description : String
deriving DecidableEq, Repr

/-- Row of the `pricing` table. -/
structure PricingRow where
  price : ℚ
  currency : String
  discount : ℚ
  salePrice : ℚ
  promotion : String
deriving DecidableEq, Repr

/-- Row of the `inventory` table. -/
structure InventoryRow where
  inStock : Bool
  quantity : Int
  warehouse : String
  shippingTime : String
deriving DecidableEq, Repr

/-- Row of the `reviews` table. -/
structure ReviewsRow where
  averageRating : ℚ
  totalReviews : Int
  recentReview : String
  fiveStar : Int
  fourStar : Int
  threeStar : Int
  twoStar : Int
  oneStar : Int
deriving DecidableEq, Repr

/-- The sqlite store: one association list per table, keyed by book id. -/
structure Database where
  books : List (String × BookRow)
  pricing : List (String × PricingRow)
  inventory : List (String × InventoryRow)
  reviews : List (String × ReviewsRow)
deriving DecidableEq, Repr

/-- FetchBookMetadata (`database.go`): look the id up in the `books` table;
on query failure return the single-key error bag, otherwise the five-field
metadata bag. -/
def FetchBookMetadata (db : Database) (bookID : String) : AttributeBag :=
  match db.books.lookup bookID with
  | none => [("error", .str "Failed to fetch book metadata")]
  | some row =>
      [("title", .str row.title),
       ("author", .str row.author),
       ("isbn", .str row.isbn),
       ("publish_date", .str row.publishDate),
       ("description", .str row.description)]

/-- FetchBookPricing (`database.go`). -/
def FetchBookPricing (db : Database) (bookID : String) : AttributeBag :=
  match db.pricing.lookup bookID with
  | none => [("error", .str "Failed to fetch pricing information")]
  | some row =>
      [("price", .num row.price),
       ("currency", .str row.currency),
       ("discount", .num row.discount),
       ("sale_price", .num row.salePrice),
       ("promotion", .str row.promotion)]

/-- FetchBookInventory (`database.go`). -/
def FetchBookInventory (db : Database) (bookID : String) : AttributeBag :=
  match db.inventory.lookup bookID with
  | none => [("error", .str "Failed to fetch inventory information")]
  | some row =>
      [("in_stock", .bool row.inStock),
       ("quantity", .int row.quantity),
       ("warehouse", .str row.warehouse),
       ("shipping_time", .str row.shippingTime)]

/-- FetchBookReviews (`database.go`): note the nested rating-breakdown map. -/
def FetchBookReviews (db : Database) (bookID : String) : AttributeBag :=
  match db.reviews.lookup bookID with
  | none => [("error", .str "Failed to fetch reviews")]
  | some row =>
      [("average_rating", .num row.averageRating),
       ("total_reviews", .int row.totalReviews),
       ("recent_review", .str row.recentReview),
       ("rating_breakdown", .intMap
         [("5_star", row.fiveStar),
          ("4_star", row.fourStar),
          ("3_star", row.threeStar),
          ("2_star", row.twoStar),
          ("1_star", row.oneStar)])]

/-- Outcome of the external zenquotes.io call made by
FetchPersonalizedRecommendations: network failure, JSON parse failure, or the
parsed quote data.  The call itself is an external collaborator, so the
outcome is a parameter of the model. -/
inductive ApiOutcome where
  | netFailure
  | badJson
  | quotes : List (List (String × String)) → ApiOutcome
deriving DecidableEq, Repr

/-- FetchPersonalizedRecommendations (`database.go`): error bags on network or
parse failure, otherwise the enriched recommendation bag. -/
def FetchPersonalizedRecommendations (api : ApiOutcome) (bookID userID : String) :
    AttributeBag :=
  match api with
  | .netFailure =>
      [("error", .str "Failed to fetch recommendations"),
       ("source", .str "external_api_failed")]
  | .badJson => [("error", .str "Failed to parse API response")]
  | .quotes q =>
      [("user_id", .str userID),
       ("book_id", .str bookID),
       ("external_quote", .strMapList q),
       ("recommendations", .strMapList
         [[("title", "Based on your reading preferences..."),
           ("source", "external_api_enriched")]]),
       ("api_source", .str "zenquotes.io")]

/-- BookDetailsResponse (models file): the aggregate result record.  The Go
struct has a `Recommendations map[string]interface{}` field that no handler
ever assigns, so its zero value is the nil map, modelled as `none`. -/
structure BookDetailsResponse where
  bookID : String
  metadata : AttributeBag
  pricing : AttributeBag
  inventory : AttributeBag
  reviews : AttributeBag
  recommendations : Option AttributeBag
  duration : Int
deriving DecidableEq, Repr

/-- handleSequentialBookDetails: the four fetchers one after another, then the
response record.  `dur` is the externally measured wall-clock duration. -/
def handleSequentialBookDetails (db : Database) (bookID : String) (dur : Int) :
    BookDetailsResponse :=
  { bookID := bookID
    metadata := FetchBookMetadata db bookID
    pricing := FetchBookPricing db bookID
    inventory := FetchBookInventory db bookID
    reviews := FetchBookReviews db bookID
    recommendations := none
    duration := dur }

/-- The four concurrent fetcher tasks of handleConcurrentBookDetails, one per
result channel. -/
inductive Role where
  | metadata
  | pricing
  | inventory
  | reviews
deriving DecidableEq, Repr

/-- The full set of tasks the concurrent orchestrator launches. -/
def concurrentRoles : List Role := [.metadata, .pricing, .inventory, .reviews]

/-- The fetcher dedicated to a role. -/
def fetchFor (db : Database) (bookID : String) : Role → AttributeBag
  | .metadata => FetchBookMetadata db bookID
  | .pricing => FetchBookPricing db bookID
  | .inventory => FetchBookInventory db bookID
  | .reviews => FetchBookReviews db bookID

/-- The four single-writer result slots (the four channels): `none` while the
dedicated task has not yet deposited its result. -/
structure Slots where
  metadata : Option AttributeBag
  pricing : Option AttributeBag
  inventory : Option AttributeBag
  reviews : Option AttributeBag
deriving DecidableEq, Repr

/-- All slots empty: the state right after the channels are created. -/
def initSlots : Slots := ⟨none, none, none, none⟩

/-- Task `r` deposits bag `b` into its own slot. -/
def writeSlot (s : Slots) : Role → AttributeBag → Slots
  | .metadata, b => { s with metadata := some b }
  | .pricing, b => { s with pricing := some b }
  | .inventory, b => { s with inventory := some b }
  | .reviews, b => { s with reviews := some b }

/-- Read the slot of role `r`. -/
def getSlot (s : Slots) : Role → Option AttributeBag
  | .metadata => s.metadata
  | .pricing => s.pricing
  | .inventory => s.inventory
  | .reviews => s.reviews

/-- Run the launched tasks in completion order `σ`: each task computes its
dedicated fetcher's bag and writes it into its own slot. -/
def runTasks (db : Database) (bookID : String) (σ : List Role) : Slots :=
  σ.foldl (fun s r => writeSlot s r (fetchFor db bookID r)) initSlots

/-- The fan-in join: the response is assembled only once every slot has been
written; otherwise the orchestrator is still blocked on a channel receive. -/
def assemble (bookID : String) (dur : Int) (s : Slots) :
    Option BookDetailsResponse :=
  match s.metadata, s.pricing, s.inventory, s.reviews with
  | some m, some p, some i, some rv =>
      some { bookID := bookID, metadata := m, pricing := p, inventory := i,
             reviews := rv, recommendations := none, duration := dur }
  | _, _, _, _ => none

/-- handleConcurrentBookDetails: fan-out into one task per role, run them in
completion order `σ`, then join on all four slots.  `none` means the join is
still blocked because some task has not completed. -/
def handleConcurrentBookDetails (db : Database) (bookID : String) (dur : Int)
    (σ : List Role) : Option BookDetailsResponse :=
  assemble bookID dur (runTasks db bookID σ)

/-- A recorded fetcher invocation (the argument the fetcher was called with),
used to state which fetchers a handler actually ran. -/
inductive FetchCall where
  | metadata : String → FetchCall
  | pricing : String → FetchCall
  | inventory : String → FetchCall
  | reviews : String → FetchCall
  | recommendations : String → String → FetchCall
deriving DecidableEq, Repr

/-- Whether a recorded invocation is a recommendations fetch. -/
def FetchCall.isRecommendations : FetchCall → Bool
  | .recommendations _ _ => true
  | _ => false

/-- The invocation a concurrent task of role `r` performs for book `id`. -/
def FetchCall.ofRole (id : String) : Role → FetchCall
  | .metadata => .metadata id
  | .pricing => .pricing id
  | .inventory => .inventory id
  | .reviews => .reviews id

/-- The invocation trace of the sequential orchestrator: the four fetchers in
the fixed source order. -/
def seqTrace (id : String) : List FetchCall :=
  [.metadata id, .pricing id, .inventory id, .reviews id]

/-- An incoming HTTP request as the handlers see it: method, URL path, and
the `mode` and `userId` query parameters; Go's `Query().Get` returns the
empty string for an absent parameter, so absence is the empty string here. -/
structure Request where
  method : String
  path : String
  mode : String
  userId : String
deriving DecidableEq, Repr

/-- What the book-details handler writes back.  `invalidURL` is the 400
"Invalid URL Format. Expected /api/books/{id}/details" rejection, `invalidMode`
the 400 "Invalid mode. Use sequential or concurrent" rejection, `ok` a 200
with the serialized aggregate, and `blocked` the state in which the concurrent
join is still waiting on an unfinished task (no response yet). -/
inductive HandlerResult where
  | invalidURL
  | invalidMode
  | ok : BookDetailsResponse → HandlerResult
  | blocked
deriving DecidableEq, Repr

/-- The recommendations bag of a handler outcome, `none` when the outcome is
not a response or the response's recommendations field is the nil map. -/
def HandlerResult.recommendationsOf : HandlerResult → Option AttributeBag
  | .ok r => r.recommendations
  | _ => none

/-- Whether a handler outcome is a successful response. -/
def HandlerResult.isOk : HandlerResult → Bool
  | .ok _ => true
  | _ => false

/-- The mode selector plus orchestrator dispatch of BookDetailHandler: the
literal match on the (already defaulted) mode string.  Returns the handler
outcome together with the trace of fetcher invocations performed. -/
def dispatchMode (db : Database) (bookID : String) (mode : String) (dur : Int)
    (σ : List Role) : HandlerResult × List FetchCall :=
  match mode with
  | "sequential" => (.ok (handleSequentialBookDetails db bookID dur), seqTrace bookID)
  | "concurrent" =>
      (match handleConcurrentBookDetails db bookID dur σ with
       | some resp => .ok resp
       | none => .blocked,
       σ.map (FetchCall.ofRole bookID))
  | _ => (.invalidMode, [])

/-- Split a character list around every occurrence of `sep`, keeping empty
parts: the semantics of Go strings.Split for a one-character separator. -/
def splitChar (sep : Char) : List Char → List (List Char)
  | [] => [[]]
  | c :: rest =>
      let ps := splitChar sep rest
      if c = sep then [] :: ps
      else match ps with
        | [] => [[c]]
        | p :: tail => (c :: p) :: tail

/-- Go strings.Split(s, sep) for a one-character separator, on strings.
(Defined structurally so it evaluates inside the kernel; Lean's own
String.splitOn is well-founded recursion and does not.) -/
def goSplit (sep : Char) (s : String) : List String :=
  (splitChar sep s.data).map fun l => String.mk l

/-- BookDetailHandler: split the path on "/", reject when there are fewer
than five parts or the fifth is not "details", take the fourth part as the
book id, default an empty mode to "sequential", and dispatch.  The Go handler
never inspects the HTTP method or the extracted id. -/
def BookDetailHandler (db : Database) (req : Request) (dur : Int)
    (σ : List Role) : HandlerResult × List FetchCall :=
  let pathParts := goSplit '/' req.path
  if pathParts.length < 5 ∨ pathParts.getD 4 "" ≠ "details" then
    (.invalidURL, [])
  else
    let bookID := pathParts.getD 3 ""
    let mode := if req.mode = "" then "sequential" else req.mode
    dispatchMode db bookID mode dur σ

/-- An entity of the static catalog (models file `Book`). -/
structure Book where
  id : String
  title : String
  author : String
  price : ℚ
deriving DecidableEq, Repr

/-- The in-memory catalog (models file `books`). -/
def books : List Book :=
  [{ id := "1", title := "The Go Programming Language", author := "Alan Donovan", price := 39.99 },
   { id := "2", title := "Clean Code", author := "Robert Martin", price := 32.50 },
   { id := "3", title := "System Design Interview", author := "Alex Xu", price := 28.95 },
   { id := "4", title := "Dopamine Nation", author := "Anna Lembke", price := 20.00 }]

/-- Outcome of the list endpoint. -/
inductive BooksResult where
  | methodNotAllowed
  | booksList : List Book → BooksResult
deriving DecidableEq, Repr

/-- BooksHandler (the list endpoint): rejects every non-GET method with 405,
otherwise returns the full catalog. -/
def BooksHandler (method : String) : BooksResult :=
  if method ≠ "GET" then .methodNotAllowed else .booksList books

/-- The sample store written by populateInitialData (`database.go`). -/
def sampleDB : Database :=
  { books :=
      [("1", { title := "The Go Programming Language", author := "Alan Donovan",
               isbn := "978-0134190440", publishDate := "2015-11-16",
               description := "The authoritative resource to writing clear and idiomatic Go" }),
       ("2", { title := "Clean Code", author := "Robert Martin",
               isbn := "978-0132350884", publishDate := "2008-08-11",
               description := "A handbook of agile software craftsmanship" }),
       ("3", { title := "System Design Interview", author := "Alex Xu",
               isbn := "978-1736049112", publishDate := "2020-06-04",
               description := "An insiders guide to system design interviews" }),
       ("4", { title := "Dopamine Nation", author := "Anna Lembke",
               isbn := "978-1524746728", publishDate := "2021-08-24",
               description := "Finding balance in the age of indulgence" })]
    pricing :=
      [("1", { price := 39.99, currency := "USD", discount := 0.10, salePrice := 35.99, promotion := "Holiday Sale" }),
       ("2", { price := 32.50, currency := "USD", discount := 0.05, salePrice := 30.88, promotion := "Member Discount" }),
       ("3", { price := 28.95, currency := "USD", discount := 0.00, salePrice := 28.95, promotion := "" }),
       ("4", { price := 20.00, currency := "USD", discount := 0.15, salePrice := 17.00, promotion := "Limited Time" })]
    inventory :=
      [("1", { inStock := true, quantity := 42, warehouse := "East Coast DC", shippingTime := "2-3 business days" }),
       ("2", { inStock := true, quantity := 38, warehouse := "Central DC", shippingTime := "1-2 business days" }),
       ("3", { inStock := true, quantity := 15, warehouse := "West Coast DC", shippingTime := "3-4 business days" }),
       ("4", { inStock := false, quantity := 0, warehouse := "Back Order", shippingTime := "2-3 weeks" })]
    reviews :=
      [("1", { averageRating := 4.5, totalReviews := 89, recentReview := "Essential reading for Go developers",
               fiveStar := 45, fourStar := 28, threeStar := 12, twoStar := 3, oneStar := 1 }),
       ("2", { averageRating := 4.3, totalReviews := 127, recentReview := "Changed how I think about writing code",
               fiveStar := 65, fourStar := 32, threeStar := 20, twoStar := 7, oneStar := 3 }),
       ("3", { averageRating := 4.7, totalReviews := 56, recentReview := "Incredibly helpful for interview prep",
               fiveStar := 38, fourStar := 14, threeStar := 3, twoStar := 1, oneStar := 0 }),
       ("4", { averageRating := 4.1, totalReviews := 94, recentReview := "Eye-opening perspective on modern life",
               fiveStar := 42, fourStar := 31, threeStar := 15, twoStar := 4, oneStar := 2 })] }

/-- The simulated-delay fetchers of the prototype timing harness (old main.go
document): each sleeps a fixed number of milliseconds then returns a constant
bag.  The pair is (delay in ms, bag). -/
def fetchBookMetadataSim : Nat × AttributeBag :=
  (80,
   [("title", .str "Sample Book Title"),
    ("author", .str "Sample Author"),
    ("isbn", .str "978-0123456789"),
    ("publish_date", .str "2023-01-15"),
    ("description", .str "A detailed description of the book")])

/-- Simulated pricing fetcher: 120 ms sleep. -/
def fetchBookPricingSim : Nat × AttributeBag :=
  (120,
   [("price", .num 29.99),
    ("currency", .str "USD"),
    ("discount", .num 0.10),
    ("sale_price", .num 26.99),
    ("promotion", .str "Limited time offer")])

/-- Simulated inventory fetcher: 150 ms sleep. -/
def fetchBookInventorySim : Nat × AttributeBag :=
  (150,
   [("in_stock", .bool true),
    ("quantity", .int 42),
    ("warehouse", .str "East Coast Distribution"),
    ("shipping_time", .str "2-3 business days")])

/-- Simulated reviews fetcher: 100 ms sleep. -/
def fetchBookReviewsSim : Nat × AttributeBag :=
  (100,
   [("average_rating", .num 4.3),
    ("total_reviews", .int 127),
    ("recent_review", .str "Great book, highly recommended!"),
    ("rating_breakdown", .intMap
      [("5_star", 65), ("4_star", 32), ("3_star", 20), ("2_star", 7), ("1_star", 3)])])

/-- The delays of the four simulated fetchers, in the sequential call order. -/
def simDelays : List Nat :=
  [fetchBookMetadataSim.1, fetchBookPricingSim.1,
   fetchBookInventorySim.1, fetchBookReviewsSim.1]

/-- Idealised duration of the sequential orchestrator over the simulated
fetchers: the sleeps happen one after another, so the total is their sum. -/
def sequentialSimDuration : Nat := simDelays.sum

/-- Idealised duration of the concurrent orchestrator over the simulated
fetchers: the sleeps overlap and the join waits for the slowest, so the total
is their maximum. -/
def concurrentSimDuration : Nat := simDelays.foldr max 0

/-- Reading the slot of role `r` after task `r2` deposits bag `b`: unchanged
unless `r` is exactly the depositing task's own slot. -/
theorem getSlot_writeSlot (s : Slots) (r r2 : Role) (b : AttributeBag) :
    getSlot (writeSlot s r2 b) r = if r = r2 then some b else getSlot s r := by
  cases r <;> cases r2 <;> simp [writeSlot, getSlot]

/-- Every slot of the initial state is empty. -/
theorem getSlot_initSlots (r : Role) : getSlot initSlots r = none := by
  cases r <;> rfl

/-- Running tasks from any slot state: the slot of role `r` ends up holding
exactly its dedicated fetcher's bag when `r` completed, and is untouched
otherwise — regardless of the completion order. -/
theorem getSlot_foldl_tasks (db : Database) (id : String) (σ : List Role)
    (s : Slots) (r : Role) :
    getSlot (σ.foldl (fun t r2 => writeSlot t r2 (fetchFor db id r2)) s) r =
      if r ∈ σ then some (fetchFor db id r) else getSlot s r := by
  induction σ generalizing s with
  | nil => simp
  | cons a tl ih =>
      simp only [List.foldl_cons, ih, getSlot_writeSlot, List.mem_cons]
      by_cases h : r ∈ tl
      · simp [h]
      · by_cases h2 : r = a <;> simp [h, h2]

/-- Slot contents after the fan-out: the dedicated fetcher's result when the
task completed, still empty otherwise. -/
theorem getSlot_runTasks (db : Database) (id : String) (σ : List Role)
    (r : Role) :
    getSlot (runTasks db id σ) r =
      if r ∈ σ then some (fetchFor db id r) else none := by
  rw [runTasks, getSlot_foldl_tasks, getSlot_initSlots]

/-- The join never assembles while any slot is still empty. -/
theorem assemble_eq_none (id : String) (dur : Int) (s : Slots)
    (h : s.metadata = none ∨ s.pricing = none ∨ s.inventory = none ∨
         s.reviews = none) :
    assemble id dur s = none := by
  obtain ⟨m, p, i, rv⟩ := s
  cases m <;> cases p <;> cases i <;> cases rv <;> simp_all [assemble]

/-- If some task never completes, the concurrent orchestrator stays blocked
on its channel receive and produces no response. -/
theorem handleConcurrent_incomplete (db : Database) (id : String) (dur : Int)
    (σ : List Role) (r : Role) (h : r ∉ σ) :
    handleConcurrentBookDetails db id dur σ = none := by
  have hs := getSlot_runTasks db id σ r
  rw [if_neg h] at hs
  refine assemble_eq_none id dur _ ?_
  cases r
  · exact Or.inl hs
  · exact Or.inr (Or.inl hs)
  · exact Or.inr (Or.inr (Or.inl hs))
  · exact Or.inr (Or.inr (Or.inr hs))

/-- For every completion schedule in which each of the four tasks completes,
the concurrent orchestrator assembles exactly the record the sequential
orchestrator builds (given the same measured duration): each field holds its
dedicated fetcher's bag, whatever the completion order was. -/
theorem handleConcurrent_of_perm (db : Database) (id : String) (dur : Int)
    (σ : List Role) (h : σ.Perm concurrentRoles) :
    handleConcurrentBookDetails db id dur σ =
      some (handleSequentialBookDetails db id dur) := by
  have hmem : ∀ r : Role, r ∈ σ := by
    intro r
    rw [h.mem_iff]
    cases r <;> simp [concurrentRoles]
  have h1 : (runTasks db id σ).metadata = some (FetchBookMetadata db id) := by
    have := getSlot_runTasks db id σ .metadata
    rwa [if_pos (hmem _)] at this
  have h2 : (runTasks db id σ).pricing = some (FetchBookPricing db id) := by
    have := getSlot_runTasks db id σ .pricing
    rwa [if_pos (hmem _)] at this
  have h3 : (runTasks db id σ).inventory = some (FetchBookInventory db id) := by
    have := getSlot_runTasks db id σ .inventory
    rwa [if_pos (hmem _)] at this
  have h4 : (runTasks db id σ).reviews = some (FetchBookReviews db id) := by
    have := getSlot_runTasks db id σ .reviews
    rwa [if_pos (hmem _)] at this
  rw [handleConcurrentBookDetails, assemble, h1, h2, h3, h4]
  rfl

/-- The metadata fetcher always returns a nonempty bag. -/
theorem FetchBookMetadata_ne_nil (db : Database) (id : String) :
    FetchBookMetadata db id ≠ [] := by
  rw [FetchBookMetadata]
  cases db.books.lookup id <;> simp

/-- The pricing fetcher always returns a nonempty bag. -/
theorem FetchBookPricing_ne_nil (db : Database) (id : String) :
    FetchBookPricing db id ≠ [] := by
  rw [FetchBookPricing]
  cases db.pricing.lookup id <;> simp

/-- The inventory fetcher always returns a nonempty bag. -/
theorem FetchBookInventory_ne_nil (db : Database) (id : String) :
    FetchBookInventory db id ≠ [] := by
  rw [FetchBookInventory]
  cases db.inventory.lookup id <;> simp

/-- The reviews fetcher always returns a nonempty bag. -/
theorem FetchBookReviews_ne_nil (db : Database) (id : String) :
    FetchBookReviews db id ≠ [] := by
  rw [FetchBookReviews]
  cases db.reviews.lookup id <;> simp

/-- C1: For every completion schedule in which each of the four fetcher tasks
(metadata, pricing, inventory, reviews) completes, the concurrent orchestrator
assembles the response with each result slot holding exactly the bag of its
single dedicated task, each task writes its slot exactly once, no field is
duplicated or dropped, and the assembled field layout is the same for every
completion order; and whenever some task has not completed, no response is
assembled at all (the join is a full barrier). -/
theorem concurrent_join_barrier_fixed_layout (db : Database) (id : String)
    (dur : Int) (σ : List Role) (h : σ.Perm concurrentRoles) :
    handleConcurrentBookDetails db id dur σ =
      some { bookID := id,
             metadata := FetchBookMetadata db id,
             pricing := FetchBookPricing db id,
             inventory := FetchBookInventory db id,
             reviews := FetchBookReviews db id,
             recommendations := none,
             duration := dur } ∧
    (∀ r : Role, σ.count r = 1) ∧
    (∀ σ2 : List Role, ∀ r : Role, r ∉ σ2 →
       handleConcurrentBookDetails db id dur σ2 = none) := by
  refine ⟨handleConcurrent_of_perm db id dur σ h, ?_, ?_⟩
  · intro r
    rw [h.count_eq]
    cases r <;> rfl
  · intro σ2 r hr
    exact handleConcurrent_incomplete db id dur σ2 r hr

/-- Witness for C1: a concrete schedule finishing in the order reviews,
inventory, pricing, metadata still yields the fixed-layout aggregate. -/
theorem concurrent_join_barrier_fixed_layout_witness :
    List.Perm [Role.reviews, Role.inventory, Role.pricing, Role.metadata]
      concurrentRoles ∧
    handleConcurrentBookDetails sampleDB "1" 7
        [Role.reviews, Role.inventory, Role.pricing, Role.metadata] =
      some { bookID := "1",
             metadata := FetchBookMetadata sampleDB "1",
             pricing := FetchBookPricing sampleDB "1",
             inventory := FetchBookInventory sampleDB "1",
             reviews := FetchBookReviews sampleDB "1",
             recommendations := none,
             duration := 7 } :=
  ⟨by decide,
   (concurrent_join_barrier_fixed_layout sampleDB "1" 7
      [Role.reviews, Role.inventory, Role.pricing, Role.metadata] (by decide)).1⟩

/-- C2: for the same identifier and the same (deterministic) fetcher set the
sequential and the concurrent orchestrators agree on every field of the
aggregate except possibly the measured duration. -/
theorem sequential_concurrent_same_fields (db : Database) (id : String)
    (d1 d2 : Int) (σ : List Role) (h : σ.Perm concurrentRoles) :
    ∃ c, handleConcurrentBookDetails db id d2 σ = some c ∧
      c.bookID = (handleSequentialBookDetails db id d1).bookID ∧
      c.metadata = (handleSequentialBookDetails db id d1).metadata ∧
      c.pricing = (handleSequentialBookDetails db id d1).pricing ∧
      c.inventory = (handleSequentialBookDetails db id d1).inventory ∧
      c.reviews = (handleSequentialBookDetails db id d1).reviews ∧
      c.recommendations = (handleSequentialBookDetails db id d1).recommendations :=
  ⟨handleSequentialBookDetails db id d2,
   handleConcurrent_of_perm db id d2 σ h, rfl, rfl, rfl, rfl, rfl, rfl⟩

/-- Witness for C2 at book id 2 with differing durations 3 and 9. -/
theorem sequential_concurrent_same_fields_witness :
    List.Perm concurrentRoles concurrentRoles ∧
    ∃ c, handleConcurrentBookDetails sampleDB "2" 9 concurrentRoles = some c ∧
      c.bookID = (handleSequentialBookDetails sampleDB "2" 3).bookID ∧
      c.metadata = (handleSequentialBookDetails sampleDB "2" 3).metadata ∧
      c.pricing = (handleSequentialBookDetails sampleDB "2" 3).pricing ∧
      c.inventory = (handleSequentialBookDetails sampleDB "2" 3).inventory ∧
      c.reviews = (handleSequentialBookDetails sampleDB "2" 3).reviews ∧
      c.recommendations = (handleSequentialBookDetails sampleDB "2" 3).recommendations :=
  ⟨List.Perm.refl concurrentRoles,
   sequential_concurrent_same_fields sampleDB "2" 3 9 concurrentRoles
     (List.Perm.refl concurrentRoles)⟩

/-- C3: for every identifier and both modes, the aggregate has every fixed
field populated — identifier, the four nonempty bags (an error bag when the
fetcher fails, never an absent field) and the duration. -/
theorem aggregate_all_fields_populated (db : Database) (id : String)
    (dur : Int) (σ : List Role) (h : σ.Perm concurrentRoles) :
    ((handleSequentialBookDetails db id dur).bookID = id ∧
     (handleSequentialBookDetails db id dur).metadata ≠ [] ∧
     (handleSequentialBookDetails db id dur).pricing ≠ [] ∧
     (handleSequentialBookDetails db id dur).inventory ≠ [] ∧
     (handleSequentialBookDetails db id dur).reviews ≠ [] ∧
     (handleSequentialBookDetails db id dur).duration = dur) ∧
    ∃ c, handleConcurrentBookDetails db id dur σ = some c ∧
      c.bookID = id ∧ c.metadata ≠ [] ∧ c.pricing ≠ [] ∧
      c.inventory ≠ [] ∧ c.reviews ≠ [] ∧ c.duration = dur :=
  ⟨⟨rfl, FetchBookMetadata_ne_nil db id, FetchBookPricing_ne_nil db id,
    FetchBookInventory_ne_nil db id, FetchBookReviews_ne_nil db id, rfl⟩,
   handleSequentialBookDetails db id dur,
   handleConcurrent_of_perm db id dur σ h,
   rfl, FetchBookMetadata_ne_nil db id, FetchBookPricing_ne_nil db id,
   FetchBookInventory_ne_nil db id, FetchBookReviews_ne_nil db id, rfl⟩

/-- Witness for C3 at the unknown identifier 404 (every fetcher fails, the
aggregate is still complete). -/
theorem aggregate_all_fields_populated_witness :
    List.Perm concurrentRoles concurrentRoles ∧
    (((handleSequentialBookDetails sampleDB "404" 5).bookID = "404" ∧
      (handleSequentialBookDetails sampleDB "404" 5).metadata ≠ [] ∧
      (handleSequentialBookDetails sampleDB "404" 5).pricing ≠ [] ∧
      (handleSequentialBookDetails sampleDB "404" 5).inventory ≠ [] ∧
      (handleSequentialBookDetails sampleDB "404" 5).reviews ≠ [] ∧
      (handleSequentialBookDetails sampleDB "404" 5).duration = 5) ∧
     ∃ c, handleConcurrentBookDetails sampleDB "404" 5 concurrentRoles = some c ∧
       c.bookID = "404" ∧ c.metadata ≠ [] ∧ c.pricing ≠ [] ∧
       c.inventory ≠ [] ∧ c.reviews ≠ [] ∧ c.duration = 5) :=
  ⟨List.Perm.refl concurrentRoles,
   aggregate_all_fields_populated sampleDB "404" 5 concurrentRoles
     (List.Perm.refl concurrentRoles)⟩

/-- C4: the fetchers are total functions into attribute bags (they never
raise: failure is data); when the lookup fails each returns the bag holding
the single error key with its message, and both orchestrators fold that error
bag into the aggregate field instead of aborting. -/
theorem fetchers_fail_as_data (db : Database) (id : String) (dur : Int)
    (σ : List Role)
    (hm : db.books.lookup id = none) (hp : db.pricing.lookup id = none)
    (hi : db.inventory.lookup id = none) (hr : db.reviews.lookup id = none)
    (hσ : σ.Perm concurrentRoles) :
    FetchBookMetadata db id = [("error", .str "Failed to fetch book metadata")] ∧
    FetchBookPricing db id = [("error", .str "Failed to fetch pricing information")] ∧
    FetchBookInventory db id = [("error", .str "Failed to fetch inventory information")] ∧
    FetchBookReviews db id = [("error", .str "Failed to fetch reviews")] ∧
    (handleSequentialBookDetails db id dur).metadata =
      [("error", .str "Failed to fetch book metadata")] ∧
    (handleSequentialBookDetails db id dur).pricing =
      [("error", .str "Failed to fetch pricing information")] ∧
    (handleSequentialBookDetails db id dur).inventory =
      [("error", .str "Failed to fetch inventory information")] ∧
    (handleSequentialBookDetails db id dur).reviews =
      [("error", .str "Failed to fetch reviews")] ∧
    ∃ c, handleConcurrentBookDetails db id dur σ = some c ∧
      c.metadata = [("error", .str "Failed to fetch book metadata")] ∧
      c.pricing = [("error", .str "Failed to fetch pricing information")] ∧
      c.inventory = [("error", .str "Failed to fetch inventory information")] ∧
      c.reviews = [("error", .str "Failed to fetch reviews")] := by
  have e1 : FetchBookMetadata db id =
      [("error", .str "Failed to fetch book metadata")] := by
    rw [FetchBookMetadata, hm]
  have e2 : FetchBookPricing db id =
      [("error", .str "Failed to fetch pricing information")] := by
    rw [FetchBookPricing, hp]
  have e3 : FetchBookInventory db id =
      [("error", .str "Failed to fetch inventory information")] := by
    rw [FetchBookInventory, hi]
  have e4 : FetchBookReviews db id =
      [("error", .str "Failed to fetch reviews")] := by
    rw [FetchBookReviews, hr]
  exact ⟨e1, e2, e3, e4, e1, e2, e3, e4,
    handleSequentialBookDetails db id dur,
    handleConcurrent_of_perm db id dur σ hσ, e1, e2, e3, e4⟩

/-- Witness for C4 at the absent identifier 999: all four lookups fail and
both orchestrators embed the four error bags. -/
theorem fetchers_fail_as_data_witness :
    sampleDB.books.lookup "999" = none ∧
    sampleDB.pricing.lookup "999" = none ∧
    sampleDB.inventory.lookup "999" = none ∧
    sampleDB.reviews.lookup "999" = none ∧
    (handleSequentialBookDetails sampleDB "999" 0).metadata =
      [("error", .str "Failed to fetch book metadata")] ∧
    ∃ c, handleConcurrentBookDetails sampleDB "999" 0 concurrentRoles = some c ∧
      c.reviews = [("error", .str "Failed to fetch reviews")] :=
  ⟨rfl, rfl, rfl, rfl,
   (fetchers_fail_as_data sampleDB "999" 0 concurrentRoles rfl rfl rfl rfl
      (List.Perm.refl concurrentRoles)).2.2.2.2.1,
   (fetchers_fail_as_data sampleDB "999" 0 concurrentRoles rfl rfl rfl rfl
      (List.Perm.refl concurrentRoles)).2.2.2.2.2.2.2.2.elim
     fun c hc => ⟨c, hc.1, hc.2.2.2.2⟩⟩

/-- C9: in the idealised cost model of the simulated fetchers (delays 80,
120, 150 and 100 ms), the sequential duration is their sum — at least the
claimed 450 ms — while the concurrent duration is their maximum 150 ms,
strictly less than the sequential duration. -/
theorem simulated_latency_sum_vs_max :
    sequentialSimDuration = 80 + 120 + 150 + 100 ∧
    450 ≤ sequentialSimDuration ∧
    concurrentSimDuration = 150 ∧
    concurrentSimDuration < sequentialSimDuration := by
  refine ⟨by decide, by decide, by decide, by decide⟩

/-- Any response the join assembles leaves the recommendations field as the
nil map. -/
theorem assemble_recommendations_none (id : String) (dur : Int) (s : Slots)
    (resp : BookDetailsResponse) (h : assemble id dur s = some resp) :
    resp.recommendations = none := by
  obtain ⟨m, p, i, rv⟩ := s
  cases m <;> cases p <;> cases i <;> cases rv <;>
    simp only [assemble, Option.some.injEq, reduceCtorEq] at h
  rw [← h]

/-- No concurrent task ever performs a recommendations fetch. -/
theorem ofRole_not_recommendations (id : String) (σ : List Role) :
    ((σ.map (FetchCall.ofRole id)).all fun c => !c.isRecommendations) = true := by
  induction σ with
  | nil => rfl
  | cons a tl ih =>
      cases a <;> simpa [FetchCall.ofRole, FetchCall.isRecommendations] using ih

/-- The URL-shape condition of the details handler is false exactly when the
path splits into at least five parts whose fifth is "details". -/
theorem detailsPathOk (req : Request)
    (h5 : 5 ≤ (goSplit '/' req.path).length)
    (hd : (goSplit '/' req.path).getD 4 "" = "details") :
    ¬ ((goSplit '/' req.path).length < 5 ∨
       (goSplit '/' req.path).getD 4 "" ≠ "details") := by
  rw [not_or, not_not]
  exact ⟨Nat.not_lt.mpr h5, hd⟩

/-- With a well-shaped path the details handler reduces to the mode dispatch
on the raw fourth path segment. -/
theorem BookDetailHandler_dispatch (db : Database) (req : Request) (dur : Int)
    (σ : List Role)
    (h5 : 5 ≤ (goSplit '/' req.path).length)
    (hd : (goSplit '/' req.path).getD 4 "" = "details") :
    BookDetailHandler db req dur σ =
      dispatchMode db ((goSplit '/' req.path).getD 3 "")
        (if req.mode = "" then "sequential" else req.mode) dur σ := by
  simp only [BookDetailHandler]
  rw [if_neg (detailsPathOk req h5 hd)]

/-- Evaluation of the selector at the literal "sequential". -/
theorem dispatchMode_sequential (db : Database) (id : String) (dur : Int)
    (σ : List Role) :
    dispatchMode db id "sequential" dur σ =
      (.ok (handleSequentialBookDetails db id dur), seqTrace id) := rfl

/-- Evaluation of the selector at the literal "concurrent". -/
theorem dispatchMode_concurrent (db : Database) (id : String) (dur : Int)
    (σ : List Role) :
    dispatchMode db id "concurrent" dur σ =
      ((match handleConcurrentBookDetails db id dur σ with
        | some resp => HandlerResult.ok resp
        | none => HandlerResult.blocked),
       σ.map (FetchCall.ofRole id)) := rfl

/-- Every other mode string is rejected by the selector with no fetch. -/
theorem dispatchMode_other (db : Database) (id mode : String) (dur : Int)
    (σ : List Role) (h1 : mode ≠ "sequential") (h2 : mode ≠ "concurrent") :
    dispatchMode db id mode dur σ = (.invalidMode, []) := by
  unfold dispatchMode
  split
  · simp_all
  · simp_all
  · rfl

/-- Whatever the mode string, the selector performs no recommendations fetch
and any response it yields has an unpopulated recommendations field. -/
theorem dispatchMode_no_recs (db : Database) (id mode : String) (dur : Int)
    (σ : List Role) :
    ((dispatchMode db id mode dur σ).2.all fun c => !c.isRecommendations) = true ∧
    (dispatchMode db id mode dur σ).1.recommendationsOf = none := by
  by_cases h1 : mode = "sequential"
  · subst h1
    rw [dispatchMode_sequential]
    exact ⟨by simp [seqTrace, FetchCall.isRecommendations], rfl⟩
  by_cases h2 : mode = "concurrent"
  · subst h2
    rw [dispatchMode_concurrent]
    refine ⟨ofRole_not_recommendations id σ, ?_⟩
    rcases hc : handleConcurrentBookDetails db id dur σ with _ | resp
    · rfl
    · show resp.recommendations = none
      exact assemble_recommendations_none id dur _ resp hc
  · rw [dispatchMode_other db id mode dur σ h1 h2]
    exact ⟨rfl, rfl⟩

/-- C10 (implicit): the details boundary accepts every request path splitting
on / into at least five parts with the fifth equal to "details" — extra
trailing segments included — and hands the fourth part, which may be the
empty string, to the mode dispatch as the identifier, with no method,
emptiness or trailing-segment check. -/
theorem path_check_shape_only (db : Database) (req : Request) (dur : Int)
    (σ : List Role)
    (h5 : 5 ≤ (goSplit '/' req.path).length)
    (hd : (goSplit '/' req.path).getD 4 "" = "details") :
    BookDetailHandler db req dur σ =
      dispatchMode db ((goSplit '/' req.path).getD 3 "")
        (if req.mode = "" then "sequential" else req.mode) dur σ :=
  BookDetailHandler_dispatch db req dur σ h5 hd

/-- Witness for C10: a DELETE request whose path has an empty id segment and
a trailing segment is still dispatched, with the empty string as id. -/
theorem path_check_shape_only_witness :
    5 ≤ (goSplit '/' "/api/books//details/anything").length ∧
    (goSplit '/' "/api/books//details/anything").getD 4 "" = "details" ∧
    BookDetailHandler sampleDB
        { method := "DELETE", path := "/api/books//details/anything",
          mode := "", userId := "" } 0 [] =
      dispatchMode sampleDB "" "sequential" 0 [] :=
  ⟨by decide, by decide,
   path_check_shape_only sampleDB
     { method := "DELETE", path := "/api/books//details/anything",
       mode := "", userId := "" } 0 [] (by decide) (by decide)⟩

/-- C5: the mode selector maps exactly the case-sensitive literals
"sequential" and "concurrent" to the corresponding orchestrator, an absent
(empty) mode defaults to sequential, and every other value is rejected with
the descriptive invalid-mode error while no fetcher is invoked. -/
theorem mode_selector_exact (db : Database) (req : Request) (dur : Int)
    (σ : List Role)
    (h5 : 5 ≤ (goSplit '/' req.path).length)
    (hd : (goSplit '/' req.path).getD 4 "" = "details") :
    (req.mode = "sequential" →
       BookDetailHandler db req dur σ =
         (.ok (handleSequentialBookDetails db
                 ((goSplit '/' req.path).getD 3 "") dur),
          seqTrace ((goSplit '/' req.path).getD 3 ""))) ∧
    (req.mode = "concurrent" →
       BookDetailHandler db req dur σ =
         ((match handleConcurrentBookDetails db
              ((goSplit '/' req.path).getD 3 "") dur σ with
           | some resp => HandlerResult.ok resp
           | none => HandlerResult.blocked),
          σ.map (FetchCall.ofRole ((goSplit '/' req.path).getD 3 "")))) ∧
    (req.mode = "" →
       BookDetailHandler db req dur σ =
         (.ok (handleSequentialBookDetails db
                 ((goSplit '/' req.path).getD 3 "") dur),
          seqTrace ((goSplit '/' req.path).getD 3 ""))) ∧
    (req.mode ≠ "" → req.mode ≠ "sequential" → req.mode ≠ "concurrent" →
       BookDetailHandler db req dur σ = (.invalidMode, [])) := by
  have hbase := BookDetailHandler_dispatch db req dur σ h5 hd
  refine ⟨?_, ?_, ?_, ?_⟩
  · intro h
    rw [hbase, h]
    rfl
  · intro h
    rw [hbase, h]
    rfl
  · intro h
    rw [hbase, h]
    rfl
  · intro h0 h1 h2
    rw [hbase, if_neg h0]
    unfold dispatchMode
    split
    · simp_all
    · simp_all
    · rfl

/-- Witness for C5: the mode value "parallel" is rejected with the
invalid-mode error and an empty invocation trace. -/
theorem mode_selector_exact_witness :
    5 ≤ (goSplit '/' "/api/books/1/details").length ∧
    (goSplit '/' "/api/books/1/details").getD 4 "" = "details" ∧
    ("parallel" : String) ≠ "" ∧
    ("parallel" : String) ≠ "sequential" ∧
    ("parallel" : String) ≠ "concurrent" ∧
    BookDetailHandler sampleDB
        { method := "GET", path := "/api/books/1/details", mode := "parallel",
          userId := "" } 0 [] = (.invalidMode, []) :=
  ⟨by decide, by decide, by decide, by decide, by decide,
   (mode_selector_exact sampleDB
      { method := "GET", path := "/api/books/1/details", mode := "parallel",
        userId := "" } 0 [] (by decide) (by decide)).2.2.2
     (by decide) (by decide) (by decide)⟩

/-- C6 counterexample: a request carrying a userId is answered successfully,
yet the recommendations fetcher is never invoked and the recommendations
field of the aggregate stays unpopulated — refuting the claim that a present
userId makes the orchestrators fetch and populate recommendations. -/
theorem userId_present_no_recommendations_cex :
    (BookDetailHandler sampleDB
        { method := "GET", path := "/api/books/1/details", mode := "",
          userId := "user42" } 0 []).1.isOk = true ∧
    (BookDetailHandler sampleDB
        { method := "GET", path := "/api/books/1/details", mode := "",
          userId := "user42" } 0 []).1.recommendationsOf = none ∧
    ((BookDetailHandler sampleDB
        { method := "GET", path := "/api/books/1/details", mode := "",
          userId := "user42" } 0 []).2.all fun c => !c.isRecommendations) = true := by
  refine ⟨rfl, rfl, rfl⟩

/-- C6 amended: the userId parameter is ignored by both orchestrators — no
handler execution ever invokes the recommendations fetcher, and every
response leaves the recommendations field of the aggregate unpopulated,
whether or not a userId is present. -/
theorem recommendations_never_fetched (db : Database) (req : Request)
    (dur : Int) (σ : List Role) :
    ((BookDetailHandler db req dur σ).2.all fun c => !c.isRecommendations) = true ∧
    (BookDetailHandler db req dur σ).1.recommendationsOf = none := by
  by_cases hurl : (goSplit '/' req.path).length < 5 ∨
      (goSplit '/' req.path).getD 4 "" ≠ "details"
  · have hb : BookDetailHandler db req dur σ = (.invalidURL, []) := by
      rw [BookDetailHandler, if_pos hurl]
    rw [hb]
    exact ⟨rfl, rfl⟩
  · rw [not_or, not_not] at hurl
    rw [BookDetailHandler_dispatch db req dur σ (Nat.not_lt.mp hurl.1) hurl.2]
    exact dispatchMode_no_recs db _ _ dur σ

/-- C7 counterexample: a POST to the details endpoint is not rejected — the
handler ignores the HTTP method, runs the sequential orchestrator and
invokes all four fetchers. -/
theorem non_get_details_processed_cex :
    BookDetailHandler sampleDB
        { method := "POST", path := "/api/books/1/details", mode := "",
          userId := "" } 0 [] =
      (.ok (handleSequentialBookDetails sampleDB "1" 0),
       [.metadata "1", .pricing "1", .inventory "1", .reviews "1"]) := by
  rfl

/-- C7 amended: bad URL shape and invalid mode are rejected by the boundary
before any fetcher is invoked, and the list endpoint rejects non-GET methods;
the details handler, however, performs no method check at all — its outcome
and its fetcher trace are identical for every HTTP method. -/
theorem boundary_rejection_scope (db : Database) (req : Request) (dur : Int)
    (σ : List Role) (meth2 : String) :
    ((goSplit '/' req.path).length < 5 ∨
       (goSplit '/' req.path).getD 4 "" ≠ "details" →
       BookDetailHandler db req dur σ = (.invalidURL, [])) ∧
    (req.mode ≠ "" → req.mode ≠ "sequential" → req.mode ≠ "concurrent" →
       (BookDetailHandler db req dur σ).2 = [] ∧
       ((BookDetailHandler db req dur σ).1 = .invalidURL ∨
        (BookDetailHandler db req dur σ).1 = .invalidMode)) ∧
    (meth2 ≠ "GET" → BooksHandler meth2 = .methodNotAllowed) ∧
    BooksHandler "GET" = .booksList books ∧
    BookDetailHandler db { req with method := meth2 } dur σ =
      BookDetailHandler db req dur σ := by
  refine ⟨?_, ?_, ?_, rfl, rfl⟩
  · intro h
    rw [BookDetailHandler, if_pos h]
  · intro h0 h1 h2
    by_cases hurl : (goSplit '/' req.path).length < 5 ∨
        (goSplit '/' req.path).getD 4 "" ≠ "details"
    · have hb : BookDetailHandler db req dur σ = (.invalidURL, []) := by
        rw [BookDetailHandler, if_pos hurl]
      rw [hb]
      exact ⟨rfl, Or.inl rfl⟩
    · rw [not_or, not_not] at hurl
      rw [BookDetailHandler_dispatch db req dur σ (Nat.not_lt.mp hurl.1) hurl.2,
        if_neg h0, dispatchMode_other db _ req.mode dur σ h1 h2]
      exact ⟨rfl, Or.inr rfl⟩
  · intro h
    rw [BooksHandler, if_pos h]

/-- Witness for C7 (amended): a too-short path is rejected with the URL
error and an empty trace, and a PUT to the list endpoint gets 405. -/
theorem boundary_rejection_scope_witness :
    ((goSplit '/' "/api/bad").length < 5 ∨
       (goSplit '/' "/api/bad").getD 4 "" ≠ "details") ∧
    BookDetailHandler sampleDB
        { method := "GET", path := "/api/bad", mode := "", userId := "" } 0 [] =
      (.invalidURL, []) ∧
    ("PUT" : String) ≠ "GET" ∧
    BooksHandler "PUT" = .methodNotAllowed :=
  ⟨by decide,
   (boundary_rejection_scope sampleDB
      { method := "GET", path := "/api/bad", mode := "", userId := "" }
      0 [] "PUT").1 (by decide),
   by decide,
   (boundary_rejection_scope sampleDB
      { method := "GET", path := "/api/bad", mode := "", userId := "" }
      0 [] "PUT").2.2.1 (by decide)⟩

/-- C8 counterexample: the empty identifier is not rejected — the path whose
id segment is empty passes the URL check and all four fetchers run with the
empty string as identifier. -/
theorem empty_id_reaches_fetchers_cex :
    BookDetailHandler sampleDB
        { method := "GET", path := "/api/books//details", mode := "",
          userId := "" } 0 [] =
      (.ok (handleSequentialBookDetails sampleDB "" 0),
       [.metadata "", .pricing "", .inventory "", .reviews ""]) := by
  rfl

/-- C8 amended: the core performs no validation on the extracted identifier
at all — every fourth path segment, the empty string included, is passed to
the fetchers unchanged (shown here for the defaulted sequential mode: the
trace is exactly the four fetch calls carrying the raw segment). -/
theorem identifier_passed_unvalidated (db : Database) (req : Request)
    (dur : Int) (σ : List Role)
    (h5 : 5 ≤ (goSplit '/' req.path).length)
    (hd : (goSplit '/' req.path).getD 4 "" = "details")
    (hm : req.mode = "") :
    BookDetailHandler db req dur σ =
      (.ok (handleSequentialBookDetails db
              ((goSplit '/' req.path).getD 3 "") dur),
       [.metadata ((goSplit '/' req.path).getD 3 ""),
        .pricing ((goSplit '/' req.path).getD 3 ""),
        .inventory ((goSplit '/' req.path).getD 3 ""),
        .reviews ((goSplit '/' req.path).getD 3 "")]) := by
  rw [BookDetailHandler, if_neg (detailsPathOk req h5 hd), hm]
  rfl

/-- Witness for C8 (amended) at an identifier that is no catalog id. -/
theorem identifier_passed_unvalidated_witness :
    5 ≤ (goSplit '/' "/api/books/@@@/details").length ∧
    (goSplit '/' "/api/books/@@@/details").getD 4 "" = "details" ∧
    (("" : String) = "") ∧
    BookDetailHandler sampleDB
        { method := "GET", path := "/api/books/@@@/details", mode := "",
          userId := "" } 0 [] =
      (.ok (handleSequentialBookDetails sampleDB "@@@" 0),
       [.metadata "@@@", .pricing "@@@", .inventory "@@@", .reviews "@@@"]) :=
  ⟨by decide, by decide, rfl,
   identifier_passed_unvalidated sampleDB
     { method := "GET", path := "/api/books/@@@/details", mode := "",
       userId := "" } 0 [] (by decide) (by decide) rfl⟩
